import Mathlib

/-!
Verification of the version-comparison core of `plugins/modules/cmp_pkg.py`
(the `run_module` function) against its natural-language specification.

The module splits its `name` parameter into tokens, requires exactly two,
probes `shutil.which` for the executable, runs the command, extracts
version candidates from the captured stdout with `re.findall(regexp, ...)`,
selects `version_list[index]`, validates the desired version with
`re.match(regexp, ...)`, and finally compares the result of `re.match`
(an `re.Match` object — the code never calls `.group()`) against
`LooseVersion(installed_version)`.

The embedding below models each of those steps, including the Python
fault behavior that is observable at this level:
  * list indexing raises `IndexError` outside `[-len, len)` and serves
    elements from the end for negative in-range indices;
  * `re.findall` / `re.match` raise `re.error` when the pattern does not
    compile (the pattern is only compiled at that point, after the
    external process has already run);
  * `somematch < LooseVersion(s)` raises `TypeError`: `re.Match` defines
    no ordering, and `LooseVersion._cmp` returns `NotImplemented` for an
    operand that is neither `str` nor `LooseVersion`, so Python falls
    through to `TypeError` — every comparison branch of the module is
    therefore unreachable as written.
-/

namespace CmpPkg

/-- Python exceptions that `run_module` can raise unhandled. -/
inductive PyExc
  | indexError
  | typeError
  | reError
  deriving DecidableEq

/-- A compiled-or-not Python regular expression, abstracted to the two
operations the module uses.  `valid = false` models a pattern string that
`re.compile` rejects (its `findall`/`matchAtStart` fields are then never
consulted: the wrappers below raise `re.error` first). -/
structure PyRegex where
  valid : Bool
  findall : String → List String
  matchAtStart : String → Option String

/-- Maximal run of decimal digits at the head of the list, with the rest. -/
def takeDigits : List Char → List Char × List Char
  | [] => ([], [])
  | c :: cs =>
    if c.isDigit then
      let p := takeDigits cs
      (c :: p.1, p.2)
    else ([], c :: cs)

/-- Maximal run of non-whitespace characters at the head, with the rest. -/
def takeNonWs : List Char → List Char × List Char
  | [] => ([], [])
  | c :: cs =>
    if c.isWhitespace then ([], c :: cs)
    else
      let p := takeNonWs cs
      (c :: p.1, p.2)

/-- One attempt to match the default pattern `\d+\.\d+\.\d+` at the head of
the list: a nonempty digit run, a literal dot, a nonempty digit run, a
literal dot, a nonempty digit run.  Returns the matched text and the rest.
(Backtracking cannot produce any other match here: `\d+` never matches a
dot, so each `\d+` is forced to the maximal digit run.) -/
def matchDDD (l : List Char) : Option (List Char × List Char) :=
  let p1 := takeDigits l
  if p1.1 = [] then none
  else
    match p1.2 with
    | '.' :: r2 =>
      let p2 := takeDigits r2
      if p2.1 = [] then none
      else
        match p2.2 with
        | '.' :: r4 =>
          let p3 := takeDigits r4
          if p3.1 = [] then none
          else some (p1.1 ++ '.' :: p2.1 ++ '.' :: p3.1, p3.2)
        | _ => none
    | _ => none

/-- Scanner for `re.findall` with the default pattern: at each position try
to match; on success record the match and resume after it, on failure
advance one character.  The fuel argument only bounds the recursion and is
always sufficient (each step strictly shortens the list); see
`findallAux_fuel_irrelevant`. -/
def findallAux : Nat → List Char → List String
  | 0, _ => []
  | _ + 1, [] => []
  | fuel + 1, c :: cs =>
    match matchDDD (c :: cs) with
    | some (m, rest) => String.mk m :: findallAux fuel rest
    | none => findallAux fuel cs

/-- `re.findall(r"\d+\.\d+\.\d+", s)`: all non-overlapping matches of the
default pattern, in order of first appearance. -/
def findallDDD (l : List Char) : List String :=
  findallAux l.length l

/-- `re.match(r"\d+\.\d+\.\d+", s)`: the default pattern matched at the
start of the string only; text after the match is ignored.  Returns the
matched text of the `re.Match` object, or `none` when `re.match` returns
`None`. -/
def matchHeadDDD (s : String) : Option String :=
  (matchDDD s.data).map fun p => String.mk p.1

/-- The module's default `regexp` parameter, `\d+\.\d+\.\d+`, as a compiled
pattern. -/
def defaultRegex : PyRegex :=
  ⟨true, fun s => findallDDD s.data, matchHeadDDD⟩

/-- `re.findall(regexp, s)` as the module calls it: raises `re.error` when
the pattern does not compile, otherwise returns the candidate list. -/
def re_findall (r : PyRegex) (s : String) : Except PyExc (List String) :=
  if r.valid then .ok (r.findall s) else .error .reError

/-- `re.match(regexp, s)` as the module calls it: raises `re.error` when
the pattern does not compile, otherwise returns the match (or `None`). -/
def re_match (r : PyRegex) (s : String) : Except PyExc (Option String) :=
  if r.valid then .ok (r.matchAtStart s) else .error .reError

/-- Equality of `Except` results is decidable when both components are. -/
def exceptDecEq {ε α : Type} [DecidableEq ε] [DecidableEq α] :
    DecidableEq (Except ε α)
  | .ok a, .ok b =>
    if h : a = b then .isTrue (by rw [h]) else .isFalse (by intro he; cases he; exact h rfl)
  | .ok _, .error _ => .isFalse (by intro h; cases h)
  | .error _, .ok _ => .isFalse (by intro h; cases h)
  | .error e, .error f =>
    if h : e = f then .isTrue (by rw [h]) else .isFalse (by intro he; cases he; exact h rfl)

instance {ε α : Type} [DecidableEq ε] [DecidableEq α] : DecidableEq (Except ε α) :=
  exceptDecEq

/-- Python list indexing `l[i]`: elements from the front for
`0 <= i < len(l)`, from the back for `-len(l) <= i < 0`, and an uncaught
`IndexError` otherwise. -/
def pyGet (l : List String) (i : Int) : Except PyExc String :=
  if h : 0 ≤ i ∧ i < (l.length : Int) then
    .ok (l.get ⟨i.toNat, by omega⟩)
  else if h2 : -(l.length : Int) ≤ i ∧ i < 0 then
    .ok (l.get ⟨(i + l.length).toNat, by omega⟩)
  else
    .error .indexError

/-- `shlex.split` for command strings without quote, escape or comment
characters (all inputs the module's documentation shows are of this form):
split on runs of whitespace. -/
def shlexSplit (s : String) : List String :=
  tokenizeAux s.data.length s.data
where
  tokenizeAux : Nat → List Char → List String
    | 0, _ => []
    | _ + 1, [] => []
    | fuel + 1, c :: cs =>
      if c.isWhitespace then tokenizeAux fuel cs
      else
        let p := takeNonWs cs
        String.mk (c :: p.1) :: tokenizeAux fuel p.2

/-- The repr a Python f-string interpolates for an `re.Match` object whose
match starts at 0 (as in the module's comparison messages, which format the
`re.Match` object itself because `.group()` was never taken). -/
def matchRepr (g : String) : String :=
  "<re.Match object; span=(0, " ++ toString g.length ++ "), match=\x27" ++ g ++ "\x27>"

/-- Python `desired_version < LooseVersion(installed_version)` where
`desired_version` is an `re.Match` object (whose group-0 text is `g`):
`re.Match` defines no rich comparison, and `LooseVersion._cmp` returns
`NotImplemented` for an operand that is neither `str` nor `LooseVersion`,
so the comparison raises `TypeError` unconditionally. -/
def matchLtLooseVersion (g installed : String) : Except PyExc Bool :=
  .error .typeError

/-- Python `desired_version > LooseVersion(installed_version)` with an
`re.Match` object on the left: raises `TypeError` for the same reason as
`matchLtLooseVersion`.  (Unreachable in `run_module`: the `<` comparison
raises first.) -/
def matchGtLooseVersion (g installed : String) : Except PyExc Bool :=
  .error .typeError

/-- The module's `result` dict (the `failed` key is carried instead by the
`exitJson` / `failJson` distinction below). -/
structure ResultDict where
  msg : String
  rc : Int
  version_list : List String
  deriving DecidableEq

/-- How one call of `run_module` ends: `module.exit_json(**result)`,
`module.fail_json(...)` (recording the `result` dict at that point and the
`msg` actually passed — the two mid-function `fail_json` calls pass only
`msg`, so the dict's `rc` is not part of the emitted JSON there), or an
uncaught Python exception. -/
inductive RunResult
  | exitJson (r : ResultDict)
  | failJson (r : ResultDict) (emitted_msg : String)
  | crashed (e : PyExc)
  deriving DecidableEq

/-- The `rc` field of the module's result dict at the moment it exits, or
`none` when the module crashed with an uncaught exception. -/
def rcOf : RunResult → Option Int
  | .exitJson r => some r.rc
  | .failJson r _ => some r.rc
  | .crashed _ => none

/-- The module's parameters after Ansible's argument parsing: `name`
(aliased `get_command_version`), `desired_version`, `regexp`
(default `\d+\.\d+\.\d+`) and `index` (default 0). -/
structure Params where
  name : String
  desired_version : String
  regexp : PyRegex
  index : Int

/-- The host environment: whether `shutil.which` resolves an executable,
and what `module.run_command` returns — `(rc, stdout, stderr)` — for a
given argument list. -/
structure Host where
  which : String → Bool
  run_command : List String → Int × String × String

/-- Shallow embedding of `run_module` (`plugins/modules/cmp_pkg.py`,
lines 111–186), paired with the number of external process invocations
performed.  Step by step:
  * `command_version = shlex.split(name)`; `fail_json(**result)` with
    `rc = -1` unless it has exactly two tokens;
  * `exit_json` with `rc = 3` when `shutil.which` cannot resolve
    `command_version[0]`, before any process is run;
  * `_, stdout, _ = module.run_command(command_version)`;
  * `version_list = re.findall(regexp, stdout)` inside a
    `try/except TypeError` (so `re.error` from an invalid pattern
    propagates uncaught);
  * `installed_version = version_list[index]` with bare indexing
    (`IndexError` propagates uncaught);
  * `desired_version = re.match(regexp, params["desired_version"])`;
    `fail_json` with dict `rc = -1` when there is no match;
  * the `LooseVersion` comparisons, which raise `TypeError` because the
    left operand is the `re.Match` object itself (the branches below the
    first comparison are dead code as written, translated faithfully). -/
def run_module (p : Params) (host : Host) : RunResult × Nat :=
  let command_version := shlexSplit p.name
  if command_version.length ≠ 2 then
    (.failJson ⟨"\x27name\x27 parameter should only contains 2 items: " ++ p.name, -1, []⟩
      ("\x27name\x27 parameter should only contains 2 items: " ++ p.name), 0)
  else if host.which (command_version.headD "") = false then
    (.exitJson ⟨"No desired version is installed.", 3, []⟩, 0)
  else
    let stdout := (host.run_command command_version).2.1
    match re_findall p.regexp stdout with
    | .error .typeError =>
      (.failJson ⟨"", 1, []⟩ ("Error getting version from command: " ++ stdout), 1)
    | .error e => (.crashed e, 1)
    | .ok version_list =>
      match pyGet version_list p.index with
      | .error e => (.crashed e, 1)
      | .ok installed_version =>
        match re_match p.regexp p.desired_version with
        | .error e => (.crashed e, 1)
        | .ok none =>
          (.failJson ⟨"", -1, version_list⟩
            ("Error validate desired version: " ++ p.desired_version), 1)
        | .ok (some desired_match) =>
          match matchLtLooseVersion desired_match installed_version with
          | .error e => (.crashed e, 1)
          | .ok true =>
            (.exitJson ⟨"Desired version(" ++ matchRepr desired_match ++
              ") is less than installed version(" ++ installed_version ++ ").",
              -2, version_list⟩, 1)
          | .ok false =>
            match matchGtLooseVersion desired_match installed_version with
            | .error e => (.crashed e, 1)
            | .ok true =>
              (.exitJson ⟨"Desired version(" ++ matchRepr desired_match ++
                ") is greater than installed version(" ++ installed_version ++ ").",
                2, version_list⟩, 1)
            | .ok false =>
              (.exitJson ⟨"Desired version(" ++ matchRepr desired_match ++
                ") matches the installed version(" ++ installed_version ++ ").",
                0, version_list⟩, 1)

/-! ## Faithfulness of the fuel-based scanner

`findallAux` carries a fuel argument only to make the recursion structural;
the lemmas below show the fuel never runs out when initialised with the
length of the input, so `findallDDD` is the plain scan-and-resume loop of
`re.findall`. -/

theorem takeDigits_append (l : List Char) :
    (takeDigits l).1 ++ (takeDigits l).2 = l := by
  induction l with
  | nil => rfl
  | cons c cs ih =>
    by_cases hc : c.isDigit
    · simp [takeDigits, hc, ih]
    · simp [takeDigits, hc]

theorem takeDigits_snd_length_le (l : List Char) :
    (takeDigits l).2.length ≤ l.length := by
  have h := congrArg List.length (takeDigits_append l)
  simp only [List.length_append] at h
  omega

theorem matchDDD_rest_lt {l m rest : List Char} (h : matchDDD l = some (m, rest)) :
    rest.length < l.length := by
  have ha := congrArg List.length (takeDigits_append l)
  simp only [List.length_append] at ha
  simp only [matchDDD] at h
  split at h
  · exact absurd h (by simp)
  · split at h
    · rename_i r2 heq2
      have hb := congrArg List.length (takeDigits_append r2)
      simp only [List.length_append] at hb
      split at h
      · exact absurd h (by simp)
      · split at h
        · rename_i r4 heq4
          have hc := takeDigits_snd_length_le r4
          split at h
          · exact absurd h (by simp)
          · have hrest : rest = (takeDigits r4).2 := by
              injection h with h'
              exact (congrArg Prod.snd h').symm
            have h2 : (takeDigits l).2.length = r2.length + 1 := by rw [heq2]; rfl
            have h4 : (takeDigits r2).2.length = r4.length + 1 := by rw [heq4]; rfl
            subst hrest
            omega
        · exact absurd h (by simp)
    · exact absurd h (by simp)

theorem findallAux_nil (n : Nat) : findallAux n [] = [] := by
  cases n <;> rfl

theorem findallAux_congr (fuel : Nat) :
    ∀ (fuel2 : Nat) (l : List Char), l.length ≤ fuel → l.length ≤ fuel2 →
      findallAux fuel l = findallAux fuel2 l := by
  induction fuel with
  | zero =>
    intro fuel2 l h _
    have : l = [] := by cases l <;> simp_all
    subst this
    rw [findallAux_nil, findallAux_nil]
  | succ fuel ih =>
    intro fuel2 l h h2
    cases l with
    | nil => rw [findallAux_nil, findallAux_nil]
    | cons c cs =>
      cases fuel2 with
      | zero => simp at h2
      | succ fuel2 =>
        simp only [findallAux]
        cases hm : matchDDD (c :: cs) with
        | none =>
          simp only [List.length_cons] at h h2
          exact ih fuel2 cs (by omega) (by omega)
        | some pr =>
          obtain ⟨m, rest⟩ := pr
          have hlt := matchDDD_rest_lt hm
          simp only [List.length_cons] at h h2 hlt
          show String.mk m :: findallAux fuel rest = String.mk m :: findallAux fuel2 rest
          rw [ih fuel2 rest (by omega) (by omega)]

theorem findallAux_fuel_irrelevant (fuel : Nat) (l : List Char)
    (h : l.length ≤ fuel) : findallAux fuel l = findallDDD l :=
  findallAux_congr fuel l.length l h le_rfl

/-! ## Generic partial evaluations of `run_module` -/

/-- Whenever the command spec is well formed and resolvable, the pattern
compiles, and candidate selection succeeds, a desired version rejected by
`re.match` makes the module fail with dict `rc = -1`, whatever candidate
was selected. -/
theorem run_module_malformed_desired (p : Params) (host : Host)
    (htok : (shlexSplit p.name).length = 2)
    (hres : host.which ((shlexSplit p.name).headD "") = true)
    (hval : p.regexp.valid = true)
    (v : String)
    (hsel : pyGet (p.regexp.findall (host.run_command (shlexSplit p.name)).2.1)
      p.index = .ok v)
    (hmal : p.regexp.matchAtStart p.desired_version = none) :
    run_module p host =
      (.failJson ⟨"", -1, p.regexp.findall (host.run_command (shlexSplit p.name)).2.1⟩
        ("Error validate desired version: " ++ p.desired_version), 1) := by
  rw [List.headD_eq_head?] at hres
  unfold run_module re_findall re_match
  simp [htok, hres, hval, hsel, hmal]

/-- Whenever the command spec is well formed and resolvable, the pattern
compiles, candidate selection succeeds, and the desired version passes
`re.match`, the module crashes with the `TypeError` raised by comparing the
`re.Match` object against `LooseVersion(installed_version)`. -/
theorem run_module_compare_raises (p : Params) (host : Host)
    (htok : (shlexSplit p.name).length = 2)
    (hres : host.which ((shlexSplit p.name).headD "") = true)
    (hval : p.regexp.valid = true)
    (v : String)
    (hsel : pyGet (p.regexp.findall (host.run_command (shlexSplit p.name)).2.1)
      p.index = .ok v)
    (g : String)
    (hm : p.regexp.matchAtStart p.desired_version = some g) :
    run_module p host = (.crashed .typeError, 1) := by
  rw [List.headD_eq_head?] at hres
  unfold run_module re_findall re_match matchLtLooseVersion
  simp [htok, hres, hval, hsel, hm]

/-! ## The claims -/

/-- C1: the claim says every out-of-range index (negative or past the end)
yields a structured NotFound/ExtractionFailed result and never an unhandled
fault.  The code instead evaluates `version_list[index]` with bare list
indexing outside the `try` block, so an index past the end of a 3-candidate
list raises an uncaught `IndexError`: the module crashes rather than
reporting `ExtractionFailed`. -/
theorem out_of_range_index_uncaught_indexError :
    run_module ⟨"ansible --version", "9.9.9", defaultRegex, 5⟩
      ⟨fun _ => true, fun _ => (0, "2.14.1 3.11.9 3.1.12", "")⟩
      = (.crashed .indexError, 1) := by decide

/-- C2 counterexample: the claim says a desired version that does not match
the pattern yields the DesiredMalformed outcome (rc = -1) even when the
candidate list is empty.  At desired "abc" with stdout containing no
pattern match, the code instead raises an uncaught `IndexError` at
`version_list[index]` before the desired string is ever validated. -/
theorem empty_candidates_crash_before_desired_validation :
    run_module ⟨"tool --version", "abc", defaultRegex, 0⟩
      ⟨fun _ => true, fun _ => (0, "no version here", "")⟩
      = (.crashed .indexError, 1) := by decide

/-- C2 (amended): a malformed desired version is reported with dict
`rc = -1` only when candidate selection succeeds; the selection
`installed_version = version_list[index]` runs first, and the rc = -1
validation failure is then produced whatever candidate was selected. -/
theorem malformed_desired_rc_neg_one_after_selection (p : Params) (host : Host)
    (htok : (shlexSplit p.name).length = 2)
    (hres : host.which ((shlexSplit p.name).headD "") = true)
    (hval : p.regexp.valid = true)
    (v : String)
    (hsel : pyGet (p.regexp.findall (host.run_command (shlexSplit p.name)).2.1)
      p.index = .ok v)
    (hmal : p.regexp.matchAtStart p.desired_version = none) :
    run_module p host =
      (.failJson ⟨"", -1, p.regexp.findall (host.run_command (shlexSplit p.name)).2.1⟩
        ("Error validate desired version: " ++ p.desired_version), 1) := by
  rw [List.headD_eq_head?] at hres
  unfold run_module re_findall re_match
  simp [htok, hres, hval, hsel, hmal]

/-- C2 witness: desired "abc" against extracted candidate "9.9.9" is
reported with dict `rc = -1`. -/
theorem malformed_desired_rc_neg_one_after_selection_witness :
    run_module ⟨"tool --version", "abc", defaultRegex, 0⟩
      ⟨fun _ => true, fun _ => (0, "9.9.9", "")⟩
      = (.failJson ⟨"", -1, ["9.9.9"]⟩ "Error validate desired version: abc", 1) :=
  (malformed_desired_rc_neg_one_after_selection
    ⟨"tool --version", "abc", defaultRegex, 0⟩
    ⟨fun _ => true, fun _ => (0, "9.9.9", "")⟩
    (by decide) rfl rfl "9.9.9" (by decide) (by decide)).trans (by decide)

/-- C3: the claim says compare(A,B)/compare(B,A) report inverse relations
and compare(A,A) reports Equal.  The code never reports any relation: the
validated desired version is the `re.Match` object itself (`.group()` is
never taken), and ordering an `re.Match` against a `LooseVersion` raises
`TypeError`, so even comparing "2.14.1" against extracted "2.14.1" crashes
instead of reporting Equal. -/
theorem self_compare_raises_typeError :
    run_module ⟨"tool --version", "2.14.1", defaultRegex, 0⟩
      ⟨fun _ => true, fun _ => (0, "tool version 2.14.1", "")⟩
      = (.crashed .typeError, 1) := by decide

/-- C4 counterexample: the claim says comparing desired "1.2" against
installed "1.2.0" yields the Equal outcome (rc = 0).  It does not: "1.2"
fails `re.match` against the default pattern `\d+\.\d+\.\d+`, so the run
ends with dict rc = -1, not rc = 0. -/
theorem one_dot_two_desired_not_equal_outcome :
    rcOf (run_module ⟨"tool --version", "1.2", defaultRegex, 0⟩
      ⟨fun _ => true, fun _ => (0, "1.2.0", "")⟩).1 ≠ some 0 := by decide

/-- C4 (amended): under the default pattern, desired "1.2" against
installed "1.2.0" is rejected as malformed (the validation failure with
dict rc = -1), and symmetrically desired "1.2.0" against output "1.2"
extracts no candidate and crashes with an uncaught `IndexError`; no
trailing-zero normalization ever takes place. -/
theorem one_dot_two_behavior :
    run_module ⟨"tool --version", "1.2", defaultRegex, 0⟩
      ⟨fun _ => true, fun _ => (0, "1.2.0", "")⟩
      = (.failJson ⟨"", -1, ["1.2.0"]⟩ "Error validate desired version: 1.2", 1)
    ∧ run_module ⟨"tool --version", "1.2.0", defaultRegex, 0⟩
        ⟨fun _ => true, fun _ => (0, "1.2", "")⟩
      = (.crashed .indexError, 1) := by
  exact ⟨by decide, by decide⟩

/-- C5: the claim says comparing desired "1.9.0" against installed
"1.10.0" yields the LessThan outcome (9 < 10 numerically).  The code
instead raises the `TypeError` from ordering the `re.Match` object against
`LooseVersion("1.10.0")`: no LessThan outcome is produced. -/
theorem numeric_order_compare_raises_typeError :
    run_module ⟨"tool --version", "1.9.0", defaultRegex, 0⟩
      ⟨fun _ => true, fun _ => (0, "1.10.0", "")⟩
      = (.crashed .typeError, 1) := by decide

/-- C6: for every well-formed two-token command whose executable cannot be
resolved on the host, the module exits (non-failure) with
rc = 3 and the "No desired version is installed." message, and performs
zero external process invocations. -/
theorem absent_command_rc3_zero_invocations (p : Params) (host : Host)
    (htok : (shlexSplit p.name).length = 2)
    (habs : host.which ((shlexSplit p.name).headD "") = false) :
    run_module p host =
      (.exitJson ⟨"No desired version is installed.", 3, []⟩, 0) := by
  rw [List.headD_eq_head?] at habs
  unfold run_module
  simp [htok, habs]

/-- C6 witness: an unresolvable `ghostcmd --version` exits with rc = 3 and
no invocation. -/
theorem absent_command_rc3_zero_invocations_witness :
    run_module ⟨"ghostcmd --version", "1.0.0", defaultRegex, 0⟩
      ⟨fun _ => false, fun _ => (0, "", "")⟩
      = (.exitJson ⟨"No desired version is installed.", 3, []⟩, 0) :=
  absent_command_rc3_zero_invocations
    ⟨"ghostcmd --version", "1.0.0", defaultRegex, 0⟩
    ⟨fun _ => false, fun _ => (0, "", "")⟩
    (by decide) rfl

/-- C7: extraction collects all non-overlapping matches of the pattern
from the captured stdout in order of first appearance, and selection takes
the zero-based index-th element: for stdout whose candidates are
["2.14.1", "3.11.9", "3.1.12"] and index 1, the selected version is
"3.11.9". -/
theorem candidate_collection_and_index_selection :
    re_findall defaultRegex "ansible 2.14.1 python 3.11.9 jinja 3.1.12"
      = .ok ["2.14.1", "3.11.9", "3.1.12"]
    ∧ pyGet ["2.14.1", "3.11.9", "3.1.12"] 1 = .ok "3.11.9" := by
  exact ⟨by decide, by decide⟩

/-- C8: the claim says the system always returns a structured Outcome and
reports an invalid pattern immediately as a configuration error.  The code
instead only compiles the pattern inside `re.findall` — after the external
process has already been spawned — and the resulting `re.error` is not
caught by the `except TypeError` clause, so the module crashes with an
uncaught fault. -/
theorem invalid_pattern_uncaught_reError :
    run_module ⟨"tool --version", "1.2.3", ⟨false, fun _ => [], fun _ => none⟩, 0⟩
      ⟨fun _ => true, fun _ => (0, "1.2.3", "")⟩
      = (.crashed .reError, 1) := by decide

/-- C9: the claim says rc follows the enumerated mapping (0 equal,
2 greater, -2 less, -1 not validatable, 3 not installed, 1 extraction
failure).  The equal/greater/less codes are unreachable: even an exact
match of desired "5.6.7" against extracted "5.6.7" crashes with the
`re.Match`-vs-`LooseVersion` `TypeError` before any of rc 0, 2, -2 can be
assigned, so no rc is produced at all on that path. -/
theorem rc_equal_case_crashes_not_zero :
    run_module ⟨"tool --version", "5.6.7", defaultRegex, 0⟩
      ⟨fun _ => true, fun _ => (0, "5.6.7", "")⟩
      = (.crashed .typeError, 1) := by decide

/-- C10: desired-version validation anchors only at the start of the
string: whenever `re.match` finds the pattern at the head of the desired
string, validation succeeds — the rc = -1 validation failure is not taken
and execution proceeds into the comparison (which then raises the
`TypeError` of the Match/LooseVersion ordering), even if arbitrary
non-matching text follows the matched head. -/
theorem desired_validation_accepts_matching_head (d g : String)
    (h : matchHeadDDD d = some g) :
    run_module ⟨"tool --version", d, defaultRegex, 0⟩
      ⟨fun _ => true, fun _ => (0, "7.7.7", "")⟩
      = (.crashed .typeError, 1) :=
  run_module_compare_raises
    ⟨"tool --version", d, defaultRegex, 0⟩
    ⟨fun _ => true, fun _ => (0, "7.7.7", "")⟩
    (show (shlexSplit "tool --version").length = 2 by decide) rfl rfl "7.7.7"
    (show pyGet (defaultRegex.findall "7.7.7") 0 = Except.ok "7.7.7" by decide) g h

/-- C10 witness: "1.2.3-oops" passes validation (its head matches the
default pattern) and reaches the comparison. -/
theorem desired_validation_accepts_matching_head_witness :
    run_module ⟨"tool --version", "1.2.3-oops", defaultRegex, 0⟩
      ⟨fun _ => true, fun _ => (0, "7.7.7", "")⟩
      = (.crashed .typeError, 1) :=
  desired_validation_accepts_matching_head "1.2.3-oops" "1.2.3" (by decide)

end CmpPkg
